import Mathlib

/-
Verification of the creative-orientation core of the coaia-gemini-mcp-tool
repository: a shallow embedding, in Lean 4, of the keyword classifiers,
quality scorers, tension calculator, validation gates and phase state
machine found in src/tools/create.tool.ts, src/tools/bias-detector.tool.ts
and src/tools/create-tension-chart.tool.ts, together with theorems settling
the frozen specification claims.

JavaScript strings are modelled by Lean String (in this toolchain a list of
Char), with the handful of string primitives the source uses modelled at
the character-list level: includes is a substring test, toLowerCase and
toUpperCase map the ASCII case functions over the characters, trim drops
whitespace at both ends.  The awaited call to the external generation
engine is modelled by an explicit function parameter gen : String -> String;
thrown errors become Except.error.
-/

/-! ## JavaScript string primitives -/

/-- Model of JavaScript s.includes(t): substring containment test. -/
def jsIncludes (s t : String) : Bool :=
  s.data.tails.any (fun suffix => t.data.isPrefixOf suffix)

/-- Model of JavaScript s.toLowerCase() (ASCII, which covers every
dictionary word used by the source). -/
def jsToLower (s : String) : String := String.mk (s.data.map Char.toLower)

/-- Model of JavaScript s.toUpperCase() (ASCII). -/
def jsToUpper (s : String) : String := String.mk (s.data.map Char.toUpper)

/-- Model of JavaScript s.trim(): drop whitespace from both ends. -/
def jsTrim (s : String) : String :=
  String.mk (((s.data.dropWhile Char.isWhitespace).reverse.dropWhile Char.isWhitespace).reverse)

theorem mem_of_jsIncludes {s t : String} (h : jsIncludes s t = true) :
    ∀ c ∈ t.data, c ∈ s.data := by
  intro c hc
  rw [jsIncludes, List.any_eq_true] at h
  obtain ⟨suf, hsuf, hpre⟩ := h
  rw [List.isPrefixOf_iff_prefix] at hpre
  rw [List.mem_tails] at hsuf
  exact hsuf.subset (hpre.subset hc)

theorem jsTrim_eq_empty_iff (s : String) :
    jsTrim s = "" ↔ ∀ c ∈ s.data, c.isWhitespace = true := by
  constructor
  · intro h c hc
    have hdata := congrArg String.data h
    simp only [jsTrim] at hdata
    have hnil : ((s.data.dropWhile Char.isWhitespace).reverse.dropWhile Char.isWhitespace).reverse = [] := hdata
    rw [List.reverse_eq_nil_iff, List.dropWhile_eq_nil_iff] at hnil
    have hd : ∀ x ∈ s.data.dropWhile Char.isWhitespace, x.isWhitespace = true := by
      intro x hx
      exact hnil x (List.mem_reverse.mpr hx)
    have hsplit := List.takeWhile_append_dropWhile (p := Char.isWhitespace) (l := s.data)
    rw [← hsplit] at hc
    rcases List.mem_append.mp hc with h1 | h2
    · exact List.mem_takeWhile_imp h1
    · exact hd _ h2
  · intro h
    have h1 : s.data.dropWhile Char.isWhitespace = [] :=
      List.dropWhile_eq_nil_iff.mpr (fun c hc => h c hc)
    rw [jsTrim, h1]
    rfl

theorem toLower_of_isWhitespace {c : Char} (h : c.isWhitespace = true) : c.toLower = c := by
  have hcases : c = ' ' ∨ c = '\t' ∨ c = '\r' ∨ c = '\n' := by
    have hh : (c = ' ' || c = '\t' || c = '\r' || c = '\n') = true := h
    simp only [Bool.or_eq_true, decide_eq_true_eq] at hh
    tauto
  rcases hcases with h | h | h | h <;> subst h <;> decide

/-- A text whose lower-cased form contains a word with a non-whitespace
character cannot be whitespace-only, so its trim is non-empty. -/
theorem jsTrim_ne_empty_of_includes (o w : String)
    (hne : w.data.any (fun c => !c.isWhitespace) = true)
    (h : jsIncludes (jsToLower o) w = true) : ¬(jsTrim o = "") := by
  intro htrim
  rw [List.any_eq_true] at hne
  obtain ⟨c, hcw, hcnw⟩ := hne
  have hcin : c ∈ (jsToLower o).data := mem_of_jsIncludes h c hcw
  simp only [jsToLower] at hcin
  rw [List.mem_map] at hcin
  obtain ⟨c0, hc0, hc0l⟩ := hcin
  have hws := (jsTrim_eq_empty_iff o).mp htrim c0 hc0
  rw [toLower_of_isWhitespace hws] at hc0l
  subst hc0l
  simp at hcnw
  rw [hws] at hcnw
  exact absurd hcnw (by decide)

/-! ## Option-of-string helpers for JavaScript truthiness idioms -/

/-- JavaScript falsiness of an optional string after trim:
models the condition of the guard `if (Bool.not s?.trim())`. -/
def optTrimBlank : Option String → Bool
  | Option.none => true
  | Option.some s => jsTrim s == ""

/-- JavaScript truthiness of an optional string: defined and non-empty. -/
def optTruthy : Option String → Bool
  | Option.none => false
  | Option.some s => s != ""

/-- Model of the template idiom `a || d`: the default replaces an absent
or empty string. -/
def jsOrDefault : Option String → String → String
  | Option.none, d => d
  | Option.some s, d => if s = "" then d else s

/-- Model of the template idiom `o ? f(o) : empty` for optional strings. -/
def jsCond (o : Option String) (f : String → String) : String :=
  match o with
  | Option.none => ""
  | Option.some s => if s = "" then "" else f s

/-! ## create.tool.ts : quality scorers and tension calculator -/

/-- Embedding of the StructuralTension interface of create.tool.ts. -/
structure StructuralTension where
  vision : String
  currentReality : String
  tension : Int
  energy : String
deriving DecidableEq

/-- The creativeWords list local to analyzeVisionQuality. -/
def creativeWords : List String :=
  ["manifest", "bring into being", "establish", "design", "develop", "realize"]

/-- The problemWords list local to analyzeVisionQuality. -/
def visionProblemWords : List String :=
  ["solve", "eliminate", "stop", "prevent", "avoid", "fix", "resolve issues"]

/-- Embedding of analyzeVisionQuality (create.tool.ts lines 31-48).
Note that the create/build/achieve check reads the raw text while the
other word checks read the lower-cased text, exactly as in the source. -/
def analyzeVisionQuality (vision : String) : Int :=
  let score : Int := 5
  let score := if vision.length > 50 then score + 1 else score
  let score := if jsIncludes vision ("create") || jsIncludes vision ("build") || jsIncludes vision ("achieve") then score + 1 else score
  let score := if !(jsIncludes (jsToLower vision) ("problem")) && !(jsIncludes (jsToLower vision) ("fix")) then score + 2 else score
  let score := if creativeWords.any (fun word => jsIncludes (jsToLower vision) word) then score + 2 else score
  let score := if visionProblemWords.any (fun word => jsIncludes (jsToLower vision) word) then score - 3 else score
  max 1 (min 10 score)

/-- The objectiveWords list local to analyzeRealityQuality. -/
def objectiveWords : List String := ["currently", "have", "am", "exists", "experience"]

/-- The judgmentWords list local to analyzeRealityQuality. -/
def judgmentWords : List String := ["terrible", "awful", "wrong", "bad", "should", "must"]

/-- The actionWords list local to analyzeRealityQuality. -/
def realityActionWords : List String := ["need to", "plan to", "going to", "will"]

/-- Embedding of analyzeRealityQuality (create.tool.ts lines 50-70). -/
def analyzeRealityQuality (reality : String) : Int :=
  let score : Int := 5
  let score := if reality.length > 30 then score + 1 else score
  let score := if reality.length > 100 then score + 1 else score
  let score := if objectiveWords.any (fun word => jsIncludes (jsToLower reality) word) then score + 1 else score
  let score := if judgmentWords.any (fun word => jsIncludes (jsToLower reality) word) then score - 2 else score
  let score := if realityActionWords.any (fun word => jsIncludes (jsToLower reality) word) then score - 1 else score
  max 1 (min 10 score)

/-- Embedding of generateTensionDescription (create.tool.ts lines 72-84). -/
def generateTensionDescription (tensionStrength visionClarity realityClarity : Int) : String :=
  if tensionStrength ≥ 8 then
    ("🌊 Excellent structural tension - both vision and reality are clear and specific. Strong creative energy available for advancement.")
  else if tensionStrength ≥ 6 then
    ("🌊 Good structural tension - clear enough for creative movement. Some refinement could increase energy.")
  else if visionClarity < realityClarity then
    ("🌊 Moderate tension - vision could be more specific and free from problem-solving language for stronger creative orientation.")
  else if realityClarity < visionClarity then
    ("🌊 Moderate tension - current reality could be more objective and detailed for clearer structural awareness.")
  else
    ("🌊 Developing tension - both vision and current reality need refinement for stronger creative force.")

/-- Embedding of calculateStructuralTension (create.tool.ts lines 14-29). -/
def calculateStructuralTension (vision currentReality : String) : StructuralTension :=
  let visionClarity := analyzeVisionQuality vision
  let realityClarity := analyzeRealityQuality currentReality
  let tensionStrength := min visionClarity realityClarity
  { vision := vision
    currentReality := currentReality
    tension := tensionStrength
    energy := generateTensionDescription tensionStrength visionClarity realityClarity }

/-! ## create.tool.ts : phase artifact templates -/

/-- Embedding of buildGerminationPrompt (create.tool.ts lines 86-126). -/
def buildGerminationPrompt (desiredOutcome : String)
    (currentReality timeframe resources : Option String) : String :=
  ("# GERMINATION - Creative Vision Development\n\n") ++
  ("## Your Creative Vision\n") ++ desiredOutcome ++ ("\n\n") ++
  ("## Current Reality  \n") ++
  jsOrDefault currentReality ("Where are you now in relation to this vision?") ++ ("\n\n") ++
  ("## Germination Energy\n") ++
  ("This is the exciting beginning phase of creation. Feel the possibility and energy of what you want to create.\n\n") ++
  ("### Vision Clarification:\n") ++
  ("- What does the completed creation look like specifically?\n") ++
  ("- What draws you to create this particular outcome?\n") ++
  ("- What aspects excite you most?\n") ++
  ("- What would success look and feel like?\n") ++
  ("- How will you know when it\x27s complete?\n\n") ++
  ("### Initial Actions:\n") ++
  ("- What\x27s one small step you could take today?\n") ++
  ("- What research or exploration would be helpful?\n") ++
  ("- What resources or connections might you need?\n") ++
  ("- Who else might be interested in this creation?\n\n") ++
  ("### Balance Planning and Action:\n") ++
  ("- Do some initial planning, but don\x27t over-plan\n") ++
  ("- Take action alongside planning\n") ++
  ("- Let the vision guide you, not methodology\n") ++
  ("- Stay connected to what you want to create\n\n") ++
  ("**Remember:** This is about bringing something into being that you want to exist. Trust your creative instincts and the energy of this beginning phase.\n\n") ++
  jsCond timeframe (fun t => ("\n**Timeframe:** ") ++ t) ++ ("\n") ++
  jsCond resources (fun r => ("\n**Available Resources:** ") ++ r)

/-- Embedding of buildAssimilationPrompt (create.tool.ts lines 128-174). -/
def buildAssimilationPrompt (desiredOutcome currentReality : String)
    (timeframe resources : Option String) : String :=
  ("# ASSIMILATION - Making Creation Part of You\n\n") ++
  ("## Structural Tension Map\n") ++
  ("**Vision:** ") ++ desiredOutcome ++ ("\n") ++
  ("**Current Reality:** ") ++ currentReality ++ ("\n") ++
  ("**Creative Tension:** The gap between vision and reality generates energy to move toward your desired outcome.\n\n") ++
  ("## Assimilation Process\n") ++
  ("The initial excitement may be settling, but this is where real creative work happens. You\x27re internalizing the creative process.\n\n") ++
  ("### Structural Tension Work:\n") ++
  ("- Hold both vision AND current reality clearly in awareness\n") ++
  ("- Feel the natural tension - this is your creative power\n") ++
  ("- Notice how this tension wants to resolve toward your vision\n") ++
  ("- Trust that your mind will generate solutions\n\n") ++
  ("### Momentum Building:\n") ++
  ("- What actions are naturally emerging from this tension?\n") ++
  ("- What resources are becoming available?\n") ++
  ("- What connections or opportunities are appearing?\n") ++
  ("- What new insights are being generated?\n") ++
  ("- What coincidences or synchronicities are occurring?\n\n") ++
  ("### Progress Assessment:\n") ++
  ("- How is your vision becoming clearer and more specific?\n") ++
  ("- What aspects of the end result are starting to become visible?\n") ++
  ("- What course corrections are needed based on what you\x27re learning?\n") ++
  ("- What\x27s working well in your creative process?\n") ++
  ("- What obstacles are resolving naturally?\n\n") ++
  ("### Natural Movement:\n") ++
  ("- What feels like the natural next step?\n") ++
  ("- Where do you have the most energy and momentum?\n") ++
  ("- What would bring you closer to your desired outcome?\n") ++
  ("- What adjustments want to be made?\n\n") ++
  ("**Trust the Process:** Allow natural movement and useful coincidences to emerge. Your creative unconscious is working when structural tension is clearly established.\n\n") ++
  jsCond timeframe (fun t => ("\n**Timeline Check:** ") ++ t) ++ ("\n") ++
  jsCond resources (fun r => ("\n**Resource Status:** ") ++ r)

/-- Embedding of buildCompletionPrompt (create.tool.ts lines 176-226). -/
def buildCompletionPrompt (desiredOutcome currentReality : String)
    (timeframe resources : Option String) : String :=
  ("# COMPLETION - Bringing Creation to Full Fruition\n\n") ++
  ("## Near-Completion Status\n") ++
  ("**Original Vision:** ") ++ desiredOutcome ++ ("\n") ++
  ("**Current Progress:** ") ++ currentReality ++ ("\n") ++
  ("**Phase:** Final stages of creative process\n\n") ++
  ("## Completion Guidance\n") ++
  ("Your creation is nearly complete. This phase has its own energy and requirements.\n\n") ++
  ("### Finishing Touches:\n") ++
  ("- What final details will bring this to full completion?\n") ++
  ("- What finishing touches would make this truly satisfying?\n") ++
  ("- What would make you proud to share this creation?\n") ++
  ("- What small refinements would perfect it?\n\n") ++
  ("### Completion Resistance Management:\n") ++
  ("- Resist urge to add unnecessary complexity\n") ++
  ("- Don\x27t get distracted by new exciting projects\n") ++
  ("- Stay focused on completing what you started\n") ++
  ("- Recognize that completion anxiety is normal\n\n") ++
  ("### Quality Assessment:\n") ++
  ("- Does this creation fulfill your original vision?\n") ++
  ("- What aspects exceed your expectations?\n") ++
  ("- What would you do differently next time?\n") ++
  ("- What are you most proud of in this creation?\n\n") ++
  ("### Transition Preparation:\n") ++
  ("- How will you know when this is truly complete?\n") ++
  ("- What will it feel like to shift from creator to audience?\n") ++
  ("- How will you celebrate and appreciate what you\x27ve created?\n") ++
  ("- What new creative visions are emerging from this completion?\n\n") ++
  ("### Final Steps:\n") ++
  ("- What would bring this creative process to successful conclusion?\n") ++
  ("- What documentation or presentation does it need?\n") ++
  ("- Who would appreciate seeing this completed creation?\n") ++
  ("- How does this completion set you up for future creations?\n\n") ++
  ("**Complete the Cycle:** Finish this creation fully so you can appreciate what you\x27ve brought into being and be ready for your next creative adventure.\n\n") ++
  jsCond timeframe (fun t => ("\n**Timeline:** ") ++ t) ++ ("\n") ++
  jsCond resources (fun r => ("\n**Final Resources:** ") ++ r)

/-- Embedding of buildStructuralTensionPrompt (create.tool.ts lines 228-249). -/
def buildStructuralTensionPrompt (tension : StructuralTension) : String :=
  ("# STRUCTURAL TENSION - Your Creative Energy\n\n") ++
  ("## Vision (What You Want to Create)\n") ++ tension.vision ++ ("\n\n") ++
  ("## Current Reality (Where You Are Now)  \n") ++ tension.currentReality ++ ("\n\n") ++
  ("## The Creative Tension\n") ++ tension.energy ++ ("\n\n") ++
  ("This tension is your creative power. It wants to resolve by moving toward your vision. What actions naturally want to emerge from this tension?\n\n") ++
  ("### Questions for Movement:\n") ++
  ("- What\x27s the smallest step you could take toward your vision today?\n") ++
  ("- What resources do you have available right now?\n") ++
  ("- What would bring you closer to your desired outcome?\n") ++
  ("- What feels like the natural next action?\n\n") ++
  ("**Trust the Tension:** This discrepancy between vision and reality is not a problem to solve - it\x27s the creative force that will move you toward what you want to create.")

/-! ## create.tool.ts : problem-language gate and the execute state machine -/

/-- The problemWords list local to detectProblemSolvingLanguage
(create.tool.ts line 253). -/
def createToolProblemWords : List String :=
  ["problem", "challenge", "fix", "solve", "issue", "difficulty", "trouble", "prevent", "stop", "avoid", "eliminate"]

/-- The redirect artifact template returned by detectProblemSolvingLanguage
when one or more problem words are detected (create.tool.ts lines 259-275). -/
def problemRedirectMessage (detectedWords : List String) : String :=
  ("🌊 **REACTIVE PATTERN DETECTED**\n\n") ++
  ("I noticed problem-solving language in your description: \"") ++
  (String.intercalate (", ") detectedWords) ++ ("\"\n\n") ++
  ("**Creative Orientation Reframe**:\n") ++
  ("The creative process is about bringing desired outcomes into being, not solving problems or eliminating what you don\x27t want.\n\n") ++
  ("**Instead of**: \"I need to fix/solve/stop...\"\n") ++
  ("**Try**: \"I want to create/establish/bring into being...\"\n\n") ++
  ("**Structural Shift**:\n") ++
  ("- **Reactive-Responsive**: Focus on what\x27s wrong → eliminate problems\n") ++
  ("- **Creative Orientation**: Focus on what you want → manifest desired outcomes\n\n") ++
  ("**Question for Reframe**: What specific positive outcome do you want to create or bring into existence?\n\n") ++
  ("This shift moves you from reactive patterns (which often create oscillation) to creative patterns (which generate advancing structures).")

/-- Embedding of detectProblemSolvingLanguage (create.tool.ts lines 252-279). -/
def detectProblemSolvingLanguage (text : String) : Option String :=
  let detectedWords := createToolProblemWords.filter (fun word => jsIncludes (jsToLower text) word)
  if detectedWords.length > 0 then Option.some (problemRedirectMessage detectedWords)
  else Option.none

/-- The creativePhase enumeration of the create tool schema. -/
inductive CreativePhase where
  | germination
  | assimilation
  | completion
deriving DecidableEq

/-- Observable outcome of a successful create-tool call: either the gate
redirect artifact, or a completed run whose text came back from the
generation engine (possibly with the tension block appended). -/
inductive CreateOutcome where
  | redirect (msg : String)
  | completed (text : String)
deriving DecidableEq

/-- Embedding of createTool.execute (create.tool.ts lines 298-375).  The
awaited external generation engine is the explicit parameter gen; a thrown
Error is Except.error carrying the message. -/
def createExecute (gen : String → String) (desiredOutcome : String)
    (currentReality : Option String) (creativePhase : CreativePhase)
    (timeframe resources : Option String) : Except String CreateOutcome :=
  if jsTrim desiredOutcome = "" then
    Except.error ("What specific outcome do you want to create? The creative process begins with a clear desired result, not a problem to solve.")
  else
    match detectProblemSolvingLanguage desiredOutcome with
    | Option.some problemRedirect => Except.ok (CreateOutcome.redirect problemRedirect)
    | Option.none =>
      match creativePhase with
      | CreativePhase.germination =>
        let enhancedPrompt := buildGerminationPrompt desiredOutcome currentReality timeframe resources
        let result := gen enhancedPrompt
        Except.ok (CreateOutcome.completed result)
      | CreativePhase.assimilation =>
        if optTrimBlank currentReality then
          Except.error ("Assimilation phase requires both your vision AND current reality to establish structural tension.")
        else
          let enhancedPrompt := buildAssimilationPrompt desiredOutcome ((currentReality).getD ("")) timeframe resources
          let result := gen enhancedPrompt
          if optTruthy currentReality then
            let tension := calculateStructuralTension desiredOutcome ((currentReality).getD (""))
            Except.ok (CreateOutcome.completed (result ++ ("\n\n---\n\n") ++ buildStructuralTensionPrompt tension))
          else
            Except.ok (CreateOutcome.completed result)
      | CreativePhase.completion =>
        if optTrimBlank currentReality then
          Except.error ("Completion phase requires understanding where you are now in relation to your original vision.")
        else
          let enhancedPrompt := buildCompletionPrompt desiredOutcome ((currentReality).getD ("")) timeframe resources
          let result := gen enhancedPrompt
          Except.ok (CreateOutcome.completed result)

/-! ## bias-detector.tool.ts : pattern dictionaries and classifier -/

/-- The problemSolvingWords dictionary of detectReactivePatterns. -/
def problemSolvingWords : List String :=
  ["problem", "challenge", "issue", "difficulty", "trouble",
   "fix", "solve", "resolve", "address", "tackle",
   "eliminate", "prevent", "stop", "avoid", "reduce",
   "improve", "enhance", "optimize", "upgrade", "better"]

/-- The gapFillingWords dictionary of detectReactivePatterns. -/
def gapFillingWords : List String :=
  ["gap", "bridge", "fill", "void", "missing", "lack",
   "need", "should", "must", "require", "necessary"]

/-- The reactiveStructures dictionary of detectReactivePatterns. -/
def reactiveStructures : List String :=
  ["how to", "ways to", "steps to", "methods for",
   "in order to", "so that", "to ensure"]

/-- The detectedProblems intermediate of detectReactivePatterns. -/
def detectedProblems (text : String) : List String :=
  problemSolvingWords.filter (fun word => jsIncludes (jsToLower text) word)

/-- The detectedGaps intermediate of detectReactivePatterns. -/
def detectedGaps (text : String) : List String :=
  gapFillingWords.filter (fun word => jsIncludes (jsToLower text) word)

/-- The detectedStructures intermediate of detectReactivePatterns. -/
def detectedStructures (text : String) : List String :=
  reactiveStructures.filter (fun phrase => jsIncludes (jsToLower text) phrase)

/-- The allDetected intermediate of detectReactivePatterns: problem terms
first, then gap terms, then structural phrases. -/
def allDetected (text : String) : List String :=
  detectedProblems text ++ detectedGaps text ++ detectedStructures text

/-- The biasType union of the BiasAnalysis interface. -/
inductive BiasType where
  | problemSolving
  | enhancement
  | gapFilling
  | reactive
  | none
deriving DecidableEq

/-- The string each biasType value denotes in the source. -/
def BiasType.toStr : BiasType → String
  | BiasType.problemSolving => "problem-solving"
  | BiasType.enhancement => "enhancement"
  | BiasType.gapFilling => "gap-filling"
  | BiasType.reactive => "reactive"
  | BiasType.none => "none"

/-- The severity union of the BiasAnalysis interface. -/
inductive Severity where
  | low
  | medium
  | high
deriving DecidableEq

/-- The string each severity value denotes in the source. -/
def Severity.toStr : Severity → String
  | Severity.low => "low"
  | Severity.medium => "medium"
  | Severity.high => "high"

/-- Embedding of the BiasAnalysis interface of bias-detector.tool.ts. -/
structure BiasAnalysis where
  hasBias : Bool
  detectedPatterns : List String
  biasType : BiasType
  severity : Severity
  suggestions : List String
deriving DecidableEq

/-- Embedding of generateReframeSuggestions (bias-detector.tool.ts).  The
detectedWords argument is accepted but, as in the source, never read. -/
def generateReframeSuggestions (_detectedWords : List String) (biasType : BiasType) : List String :=
  match biasType with
  | BiasType.problemSolving =>
    [("Reframe from \x27What problem needs solving?\x27 to \x27What outcome do I want to create?\x27"),
     ("Replace problem language with desired end states"),
     ("Focus on what you want to bring into being, not what you want to eliminate")]
  | BiasType.gapFilling =>
    [("Instead of \x27bridging gaps\x27, describe the complete desired outcome"),
     ("Replace \x27what\x27s missing\x27 with \x27what I want to establish\x27"),
     ("Shift from void-elimination to outcome-manifestation")]
  | BiasType.enhancement =>
    [("Move from \x27making X better\x27 to \x27creating specific desired version of X\x27"),
     ("Define the complete desired outcome, not improvements to current state"),
     ("Ask \x27What do I want to create?\x27 rather than \x27How can I improve this?\x27")]
  | BiasType.reactive =>
    [("Identify the desired outcome first, then consider structural tension"),
     ("Replace reactive responses with proactive creation"),
     ("Focus on advancing toward vision, not reacting to circumstances")]
  | BiasType.none =>
    [("Consider using creative orientation language")]

/-- Embedding of detectReactivePatterns (bias-detector.tool.ts lines
83-150 of its file).  The two sequential mutable assignments of the
source (biasType then severity, both driven by the same cascade of
conditions) are rendered as two pure conditional chains. -/
def detectReactivePatterns (text : String) : BiasAnalysis :=
  if (allDetected text).length = 0 then
    { hasBias := false
      detectedPatterns := []
      biasType := BiasType.none
      severity := Severity.low
      suggestions := [] }
  else
    let biasType :=
      if (detectedProblems text).length > 0 then BiasType.problemSolving
      else if (detectedGaps text).length > 0 then BiasType.gapFilling
      else if jsIncludes (jsToLower text) ("improve") || jsIncludes (jsToLower text) ("enhance") then BiasType.enhancement
      else BiasType.reactive
    let severity :=
      if (detectedProblems text).length > 0 then
        (if (detectedProblems text).length > 3 then Severity.high
         else if (detectedProblems text).length > 1 then Severity.medium
         else Severity.low)
      else if (detectedGaps text).length > 0 then
        (if (detectedGaps text).length > 3 then Severity.high
         else if (detectedGaps text).length > 1 then Severity.medium
         else Severity.low)
      else if jsIncludes (jsToLower text) ("improve") || jsIncludes (jsToLower text) ("enhance") then Severity.medium
      else Severity.low
    { hasBias := true
      detectedPatterns := allDetected text
      biasType := biasType
      severity := severity
      suggestions := generateReframeSuggestions (allDetected text) biasType }

/-! ## bias-detector.tool.ts : report composer and execute -/

/-- Embedding of buildBiasAnalysisPrompt.  The wave-emoji bytes appear in
this source file in mojibake form and are reproduced as found. -/
def buildBiasAnalysisPrompt (text : String) (analysis : BiasAnalysis) : String :=
  if !analysis.hasBias then
    ("ðŸŒŠ **BIAS ANALYSIS: CLEAN CREATIVE ORIENTATION**\n\n") ++
    ("**Text Analyzed**: \"") ++ text ++ ("\"\n\n") ++
    ("**Result**: âœ… No significant reactive bias detected\n\n") ++
    ("**Creative Orientation Assessment**:\n") ++
    ("- Language appears focused on desired outcomes\n") ++
    ("- Minimal problem-solving or enhancement patterns\n") ++
    ("- Good foundation for structural tension work\n\n") ++
    ("**Suggestions for Enhancement**:\n") ++
    ("- Consider making desired outcomes even more specific\n") ++
    ("- Ensure current reality is objective and factual\n") ++
    ("- Look for opportunities to strengthen creative vision\n\n") ++
    ("**Next Steps**: Use `create` or `create-tension-chart` tools to develop this creative orientation further.")
  else
    ("ðŸŒŠ **REACTIVE BIAS DETECTED**\n\n") ++
    ("**Text Analyzed**: \"") ++ text ++ ("\"\n\n") ++
    ("**Bias Analysis**:\n") ++
    ("- **Type**: ") ++ jsToUpper analysis.biasType.toStr ++ ("\n") ++
    ("- **Severity**: ") ++ jsToUpper analysis.severity.toStr ++ ("\n") ++
    ("- **Detected Patterns**: ") ++ String.intercalate (", ") analysis.detectedPatterns ++ ("\n\n") ++
    ("## Structural Thinking Reframe\n\n") ++
    ("**The Issue**: Your language indicates reactive-responsive orientation rather than creative orientation. This typically leads to oscillating patterns instead of advancing patterns.\n\n") ++
    ("**Reactive Pattern**: ") ++
    (if analysis.biasType = BiasType.problemSolving then ("Focus on eliminating what you don\x27t want")
     else if analysis.biasType = BiasType.gapFilling then ("Focus on filling voids or bridging gaps")
     else if analysis.biasType = BiasType.enhancement then ("Focus on making existing things better")
     else ("Focus on reacting to circumstances rather than creating desired outcomes")) ++ ("\n\n") ++
    ("**Creative Alternative**: Focus on clearly defining what you want to create or bring into being\n\n") ++
    ("## Reframe Suggestions\n\n") ++
    String.intercalate ("\n") (analysis.suggestions.enum.map (fun p => toString (p.1 + 1) ++ (". ") ++ p.2)) ++ ("\n\n") ++
    ("## Conversion Questions\n\n") ++
    ("**Instead of asking**: \"How do I solve/fix/improve this?\"\n") ++
    ("**Ask**: \"What specific outcome do I want to create?\"\n\n") ++
    ("**Instead of saying**: \"I need to eliminate/prevent/stop...\"\n") ++
    ("**Say**: \"I want to establish/create/manifest...\"\n\n") ++
    ("## Structural Tension Approach\n\n") ++
    ("Once you\x27ve reframed in creative language:\n") ++
    ("1. **Desired Outcome**: What do you want to create?\n") ++
    ("2. **Current Reality**: Where are you now objectively?\n") ++
    ("3. **Structural Tension**: Feel the natural tension between these two\n") ++
    ("4. **Action Steps**: What naturally wants to emerge from this tension?\n\n") ++
    ("**Next Step**: Rewrite your request using creative orientation language, then use `create` or `create-tension-chart` tools.")

/-- The auto-correction prompt assembled by biasDetectorTool.execute
before the second engine call. -/
def buildCorrectionPrompt (analysisResult text : String) : String :=
  analysisResult ++ ("\n\n") ++
  ("**AUTO-CORRECTION REQUEST**:\n\n") ++
  ("Based on the bias analysis above, please provide:\n\n") ++
  ("1. **Creative Rewrite**: Rewrite the original text using creative orientation language\n") ++
  ("2. **Structural Tension Setup**: Format as desired outcome + current reality if possible\n") ++
  ("3. **Action Alternative**: If the original was asking for actions, suggest how to approach this through structural tension\n\n") ++
  ("**Original Text**: \"") ++ text ++ ("\"\n\n") ++
  ("**Focus on**: \n") ++
  ("- What does the person want to CREATE or BRING INTO BEING?\n") ++
  ("- How can this be framed as a desired outcome rather than problem elimination?\n") ++
  ("- What structural tension would naturally generate the needed actions?\n\n") ++
  ("Make the rewrite practical and actionable while maintaining creative orientation.")

/-- The focus enumeration of the bias-detector schema. -/
inductive Focus where
  | problemSolving
  | gapFilling
  | enhancement
  | reactive
  | all
deriving DecidableEq

/-- Embedding of biasDetectorTool.execute.  The awaited generation engine
is the parameter gen; the focus argument is destructured by the source and
then never read, which this definition reproduces. -/
def biasDetectorExecute (gen : String → String) (text : String)
    (autoCorrect : Bool) (_focus : Focus) : Except String String :=
  if text = "" ∨ jsTrim text = "" then
    Except.error ("ðŸŒŠ What text do you want to analyze for reactive bias patterns?")
  else
    let analysis := detectReactivePatterns text
    let analysisResult := buildBiasAnalysisPrompt text analysis
    if !autoCorrect || !analysis.hasBias then
      Except.ok analysisResult
    else
      let correctionPrompt := buildCorrectionPrompt analysisResult text
      let correctionResult := gen correctionPrompt
      Except.ok (analysisResult ++ ("\n\n---\n\nðŸŒŠ **AUTO-CORRECTION APPLIED**\n\n") ++ correctionResult)

/-! ## create-tension-chart.tool.ts : chart validator -/

/-- The problemWords list local to validateChartElements. -/
def chartProblemWords : List String :=
  ["fix", "solve", "eliminate", "prevent", "stop", "avoid", "reduce"]

/-- The actionWords list local to validateChartElements. -/
def chartActionWords : List String :=
  ["need to", "should", "must", "will", "plan to", "going to"]

/-- Identity of the violation validateChartElements reports: one
constructor per early-return site of the source, carrying the detected
words where the corresponding message interpolates them. -/
inductive ChartViolation where
  | outcomeWording (detected : List String)
  | realityWording (detected : List String)
  | dueDateInvalid
  | dueDatePast
deriving DecidableEq

/-- The message text each violation renders to (the four template
strings of validateChartElements). -/
def chartViolationMessage : ChartViolation → String
  | ChartViolation.outcomeWording detected =>
    ("🌊 **Creative Orientation Issue Detected**\n\n") ++
    ("Your desired outcome contains problem-solving language: \"") ++
    (String.intercalate (", ") detected) ++ ("\"\n\n") ++
    ("**Structural Tension Charts** work with creative orientation - what you want to bring into being, not problems to eliminate.\n\n") ++
    ("**Reframe Suggestion**: Instead of focusing on what you want to fix/stop/prevent, describe the positive outcome you want to create.\n\n") ++
    ("Example:\n") ++
    ("- Instead of: \"Fix our communication problems\"\n") ++
    ("- Try: \"Establish clear, effective communication practices\"\n\n") ++
    ("Please reframe your desired outcome in terms of what you want to create or bring into existence.")
  | ChartViolation.realityWording detected =>
    ("🌊 **Current Reality Clarity Issue**\n\n") ++
    ("Your current reality contains future-oriented language: \"") ++
    (String.intercalate (", ") detected) ++ ("\"\n\n") ++
    ("**Current Reality** should describe what IS now, not what you plan to do or think you should do.\n\n") ++
    ("**Objective Description**: State facts about your present situation in relation to your desired outcome.\n\n") ++
    ("Example:\n") ++
    ("- Instead of: \"I need to learn programming\"\n") ++
    ("- Try: \"I have no programming experience but am interested in learning\"\n\n") ++
    ("Please describe your current reality as objective facts about where you are now.")
  | ChartViolation.dueDateInvalid =>
    ("🌊 **Due Date Format Issue**\n\n") ++
    ("Please provide a valid date in ISO format (YYYY-MM-DD) or a clear date description.\n\n") ++
    ("Examples:\n") ++
    ("- \"2024-12-31\"\n") ++
    ("- \"December 31, 2024\"\n") ++
    ("- \"Next Friday\"")
  | ChartViolation.dueDatePast =>
    ("🌊 **Due Date Issue**\n\n") ++
    ("The due date appears to be in the past. Structural tension works best when there\x27s a clear future target to move toward.\n\n") ++
    ("Please provide a future date for your desired outcome.")

/-- Embedding of validateChartElements (create-tension-chart.tool.ts
lines 76-143).  JavaScript Date parsing and the current clock live
outside the embedding; they enter as the parameters parseDate (Option.none
models an unparsable date, Option.some t the numeric time value) and now.
The first two rules never consult them. -/
def validateChartElements (parseDate : String → Option Int) (now : Int)
    (desiredOutcome currentReality dueDate : String) : Option ChartViolation :=
  let detectedProblems := chartProblemWords.filter (fun word => jsIncludes (jsToLower desiredOutcome) word)
  if detectedProblems.length > 0 then
    Option.some (ChartViolation.outcomeWording detectedProblems)
  else
    let detectedActions := chartActionWords.filter (fun word => jsIncludes (jsToLower currentReality) word)
    if detectedActions.length > 0 then
      Option.some (ChartViolation.realityWording detectedActions)
    else
      match parseDate dueDate with
      | Option.none => Option.some ChartViolation.dueDateInvalid
      | Option.some t => if t < now then Option.some ChartViolation.dueDatePast else Option.none

/-! ## Characterizations of the classifier fields -/

theorem detectReactivePatterns_hasBias (t : String) :
    (detectReactivePatterns t).hasBias =
      (if (allDetected t).length = 0 then false else true) := by
  rw [detectReactivePatterns]
  split_ifs <;> rfl

theorem detectReactivePatterns_detectedPatterns (t : String) :
    (detectReactivePatterns t).detectedPatterns =
      (if (allDetected t).length = 0 then [] else allDetected t) := by
  rw [detectReactivePatterns]
  split_ifs <;> rfl

theorem detectReactivePatterns_biasType (t : String) :
    (detectReactivePatterns t).biasType =
      (if (allDetected t).length = 0 then BiasType.none
       else if (detectedProblems t).length > 0 then BiasType.problemSolving
       else if (detectedGaps t).length > 0 then BiasType.gapFilling
       else if jsIncludes (jsToLower t) ("improve") || jsIncludes (jsToLower t) ("enhance") then BiasType.enhancement
       else BiasType.reactive) := by
  rw [detectReactivePatterns]
  split_ifs <;> rfl

theorem detectReactivePatterns_severity (t : String) :
    (detectReactivePatterns t).severity =
      (if (allDetected t).length = 0 then Severity.low
       else if (detectedProblems t).length > 0 then
         (if (detectedProblems t).length > 3 then Severity.high
          else if (detectedProblems t).length > 1 then Severity.medium
          else Severity.low)
       else if (detectedGaps t).length > 0 then
         (if (detectedGaps t).length > 3 then Severity.high
          else if (detectedGaps t).length > 1 then Severity.medium
          else Severity.low)
       else if jsIncludes (jsToLower t) ("improve") || jsIncludes (jsToLower t) ("enhance") then Severity.medium
       else Severity.low) := by
  rw [detectReactivePatterns]
  split_ifs <;> rfl

theorem includes_improve_mem (t : String)
    (h : jsIncludes (jsToLower t) ("improve") = true) :
    ("improve" : String) ∈ detectedProblems t :=
  List.mem_filter.mpr ⟨by decide, h⟩

theorem includes_enhance_mem (t : String)
    (h : jsIncludes (jsToLower t) ("enhance") = true) :
    ("enhance" : String) ∈ detectedProblems t :=
  List.mem_filter.mpr ⟨by decide, h⟩

/-! ## Claim theorems -/

/-- C1: for every vision string and every reality string, the structural
tension computed by calculateStructuralTension equals the minimum of the
vision quality score and the reality quality score, and both quality
scores always lie in the integer range [1,10]. -/
theorem tension_is_min_and_scores_bounded (v r : String) :
    (calculateStructuralTension v r).tension
      = min (analyzeVisionQuality v) (analyzeRealityQuality r)
    ∧ (1 ≤ analyzeVisionQuality v ∧ analyzeVisionQuality v ≤ 10)
    ∧ (1 ≤ analyzeRealityQuality r ∧ analyzeRealityQuality r ≤ 10) := by
  refine ⟨rfl, ⟨?_, ?_⟩, ⟨?_, ?_⟩⟩
  · simp only [analyzeVisionQuality]
    exact le_max_left 1 _
  · simp only [analyzeVisionQuality]
    exact max_le (by norm_num) (min_le_left _ _)
  · simp only [analyzeRealityQuality]
    exact le_max_left 1 _
  · simp only [analyzeRealityQuality]
    exact max_le (by norm_num) (min_le_left _ _)

/-- C2 counterexample: a request whose desiredOutcome contains the gate
word fix and whose currentReality is absent yields, for phase
assimilation, a successful redirect result - not a validation error - so
the claim "every assimilation or completion request with empty
currentReality fails with a validation error" is false as stated. -/
theorem phase_gating_counterexample :
    createExecute (fun s => s) ("fix the bug") Option.none CreativePhase.assimilation Option.none Option.none
      = Except.ok (CreateOutcome.redirect (problemRedirectMessage (["fix"]))) := by
  rfl

/-- C2 amended: provided the desiredOutcome is not whitespace-only and
passes the problem-language gate, a create request whose currentReality
is absent, empty or whitespace-only fails with the phase validation
error for assimilation and for completion, while the same request
succeeds for germination and produces the germination artifact. -/
theorem phase_gating_amended (gen : String → String) (o : String)
    (cr tf rs : Option String)
    (h1 : ¬(jsTrim o = ""))
    (h2 : detectProblemSolvingLanguage o = Option.none)
    (h3 : optTrimBlank cr = true) :
    createExecute gen o cr CreativePhase.assimilation tf rs
      = Except.error ("Assimilation phase requires both your vision AND current reality to establish structural tension.")
    ∧ createExecute gen o cr CreativePhase.completion tf rs
      = Except.error ("Completion phase requires understanding where you are now in relation to your original vision.")
    ∧ createExecute gen o cr CreativePhase.germination tf rs
      = Except.ok (CreateOutcome.completed (gen (buildGerminationPrompt o cr tf rs))) := by
  refine ⟨?_, ?_, ?_⟩ <;> simp [createExecute, h1, h2, h3]

/-- Witness for the amended C2 at a concrete request. -/
theorem phase_gating_amended_witness :
    createExecute (fun s => s) ("a community garden") (Option.some ("   ")) CreativePhase.assimilation Option.none Option.none
      = Except.error ("Assimilation phase requires both your vision AND current reality to establish structural tension.")
    ∧ createExecute (fun s => s) ("a community garden") (Option.some ("   ")) CreativePhase.completion Option.none Option.none
      = Except.error ("Completion phase requires understanding where you are now in relation to your original vision.")
    ∧ createExecute (fun s => s) ("a community garden") (Option.some ("   ")) CreativePhase.germination Option.none Option.none
      = Except.ok (CreateOutcome.completed ((fun s => s) (buildGerminationPrompt ("a community garden") (Option.some ("   ")) Option.none Option.none))) :=
  phase_gating_amended (fun s => s) ("a community garden") (Option.some ("   ")) Option.none Option.none
    (by decide) (by decide) (by decide)

/-- C3: whenever the desiredOutcome contains, case-insensitively, at
least one word of the gate list of detectProblemSolvingLanguage, the
create tool returns the redirect artifact, whatever the phase and the
currentReality; the right-hand side does not mention gen, so the
external generation engine is never invoked on such a request. -/
theorem problem_language_always_redirects (gen : String → String) (o : String)
    (cr : Option String) (ph : CreativePhase) (tf rs : Option String)
    (h : createToolProblemWords.filter (fun w => jsIncludes (jsToLower o) w) ≠ []) :
    createExecute gen o cr ph tf rs
      = Except.ok (CreateOutcome.redirect (problemRedirectMessage
          (createToolProblemWords.filter (fun w => jsIncludes (jsToLower o) w)))) := by
  obtain ⟨w, hw⟩ := List.exists_mem_of_ne_nil _ h
  obtain ⟨hwmem, hwinc⟩ := List.mem_filter.mp hw
  have hchar : w.data.any (fun c => !c.isWhitespace) = true := by
    have hall : ∀ u ∈ createToolProblemWords, u.data.any (fun c => !c.isWhitespace) = true := by decide
    exact hall w hwmem
  have htrim : ¬(jsTrim o = "") := jsTrim_ne_empty_of_includes o w hchar hwinc
  have hdet : detectProblemSolvingLanguage o
      = Option.some (problemRedirectMessage (createToolProblemWords.filter (fun w => jsIncludes (jsToLower o) w))) := by
    rw [detectProblemSolvingLanguage]
    rw [if_pos (List.length_pos.mpr h)]
  cases ph <;> simp [createExecute, htrim, hdet]

/-- Witness for C3 at a concrete request. -/
theorem problem_language_always_redirects_witness :
    createExecute (fun s => s) ("fix it") Option.none CreativePhase.completion Option.none Option.none
      = Except.ok (CreateOutcome.redirect (problemRedirectMessage
          (createToolProblemWords.filter (fun w => jsIncludes (jsToLower ("fix it")) w)))) :=
  problem_language_always_redirects (fun s => s) ("fix it") Option.none CreativePhase.completion Option.none Option.none
    (by decide)

/-- C4: for every input text, hasBias is false exactly when the detected
pattern list is empty, which happens exactly when the bias type is
none. -/
theorem bias_flag_patterns_type_consistent (t : String) :
    ((detectReactivePatterns t).hasBias = false ↔ (detectReactivePatterns t).detectedPatterns = [])
    ∧ ((detectReactivePatterns t).detectedPatterns = [] ↔ (detectReactivePatterns t).biasType = BiasType.none) := by
  rw [detectReactivePatterns_hasBias, detectReactivePatterns_detectedPatterns, detectReactivePatterns_biasType]
  by_cases h : (allDetected t).length = 0
  · simp [h, List.length_eq_zero.mp h]
  · have hne : allDetected t ≠ [] := fun he => h (by simp [he])
    simp only [if_neg h]
    constructor
    · simp [hne]
    · constructor
      · intro he
        exact absurd he hne
      · intro hb
        exfalso
        revert hb
        split_ifs <;> simp

/-- Severity as the claim words it: determined by the count of matches
within the selected category. -/
def countSeverity (n : Nat) : Severity :=
  if n > 3 then Severity.high
  else if n > 1 then Severity.medium
  else Severity.low

/-- C5 counterexample: this text matches all four of the reactive
structural phrases it is built from and no problem or gap word, so the
selected category is reactive with four matches; the claim demands
severity high for a count above three, but the code returns low. -/
theorem severity_by_count_counterexample :
    (detectedStructures ("how to ways to steps to methods for")).length = 4
    ∧ (detectReactivePatterns ("how to ways to steps to methods for")).biasType = BiasType.reactive
    ∧ (detectReactivePatterns ("how to ways to steps to methods for")).severity = Severity.low := by
  decide

/-- C5 amended: the by-count severity rule (above 3 high, above 1
medium, else low) holds for the problem-solving and the gap-filling
categories; when the reactive category is selected the severity is the
constant low, regardless of the number of structural matches. -/
theorem severity_by_count_amended (t : String) :
    (detectedProblems t ≠ [] →
      (detectReactivePatterns t).biasType = BiasType.problemSolving
      ∧ (detectReactivePatterns t).severity = countSeverity (detectedProblems t).length)
    ∧ (detectedProblems t = [] → detectedGaps t ≠ [] →
      (detectReactivePatterns t).biasType = BiasType.gapFilling
      ∧ (detectReactivePatterns t).severity = countSeverity (detectedGaps t).length)
    ∧ (detectedProblems t = [] → detectedGaps t = [] → detectedStructures t ≠ [] →
      (detectReactivePatterns t).biasType = BiasType.reactive
      ∧ (detectReactivePatterns t).severity = Severity.low) := by
  refine ⟨?_, ?_, ?_⟩
  · intro hp
    have hppos : (detectedProblems t).length > 0 := List.length_pos.mpr hp
    have hall : ¬((allDetected t).length = 0) := by
      simp only [allDetected, List.length_append]
      omega
    rw [detectReactivePatterns_biasType, detectReactivePatterns_severity, countSeverity]
    simp [hall, hppos]
  · intro hp hg
    have hgpos : (detectedGaps t).length > 0 := List.length_pos.mpr hg
    have hp0 : (detectedProblems t).length = 0 := by simp [hp]
    have hall : ¬((allDetected t).length = 0) := by
      simp only [allDetected, List.length_append]
      omega
    rw [detectReactivePatterns_biasType, detectReactivePatterns_severity, countSeverity]
    simp [hall, hp0, hgpos]
  · intro hp hg hs
    have hspos : (detectedStructures t).length > 0 := List.length_pos.mpr hs
    have hp0 : (detectedProblems t).length = 0 := by simp [hp]
    have hg0 : (detectedGaps t).length = 0 := by simp [hg]
    have hall : ¬((allDetected t).length = 0) := by
      simp only [allDetected, List.length_append]
      omega
    have hie : (jsIncludes (jsToLower t) ("improve") || jsIncludes (jsToLower t) ("enhance")) = false := by
      cases hi : jsIncludes (jsToLower t) ("improve") with
      | true => exact absurd (includes_improve_mem t hi) (by simp [hp])
      | false =>
        cases he : jsIncludes (jsToLower t) ("enhance") with
        | true => exact absurd (includes_enhance_mem t he) (by simp [hp])
        | false => simp [hi, he]
    rw [detectReactivePatterns_biasType, detectReactivePatterns_severity]
    simp [hall, hp0, hg0, hie]

/-- Witness for the amended C5: one concrete text per category. -/
theorem severity_by_count_amended_witness :
    ((detectReactivePatterns ("fix the issue")).biasType = BiasType.problemSolving
      ∧ (detectReactivePatterns ("fix the issue")).severity = countSeverity (detectedProblems ("fix the issue")).length)
    ∧ ((detectReactivePatterns ("the gap")).biasType = BiasType.gapFilling
      ∧ (detectReactivePatterns ("the gap")).severity = countSeverity (detectedGaps ("the gap")).length)
    ∧ ((detectReactivePatterns ("how to")).biasType = BiasType.reactive
      ∧ (detectReactivePatterns ("how to")).severity = Severity.low) :=
  ⟨(severity_by_count_amended ("fix the issue")).1 (by decide),
   (severity_by_count_amended ("the gap")).2.1 (by decide) (by decide),
   (severity_by_count_amended ("how to")).2.2 (by decide) (by decide) (by decide)⟩

/-- C6 counterexample: the text improve the gap contains improve and the
gap-filling word gap, yet the classifier returns problem-solving, not
gap-filling, because improve is itself in the problem-solving
dictionary. -/
theorem improve_gap_priority_counterexample :
    jsIncludes (jsToLower ("improve the gap")) ("improve") = true
    ∧ jsIncludes (jsToLower ("improve the gap")) ("gap") = true
    ∧ (detectReactivePatterns ("improve the gap")).biasType = BiasType.problemSolving := by
  decide

/-- C6 amended: any text containing improve, case-insensitively, is
classified problem-solving - improve belongs to the problem-solving
dictionary, whose priority is highest - so such a text is never
classified gap-filling even when gap-filling words also match. -/
theorem improve_classifies_problem_solving (t : String)
    (h : jsIncludes (jsToLower t) ("improve") = true) :
    (detectReactivePatterns t).biasType = BiasType.problemSolving := by
  have hm := includes_improve_mem t h
  have hppos : (detectedProblems t).length > 0 :=
    List.length_pos.mpr (List.ne_nil_of_mem hm)
  have hall : ¬((allDetected t).length = 0) := by
    simp only [allDetected, List.length_append]
    omega
  rw [detectReactivePatterns_biasType]
  simp [hall, hppos]

/-- Witness for the amended C6. -/
theorem improve_classifies_problem_solving_witness :
    (detectReactivePatterns ("improve the gap")).biasType = BiasType.problemSolving :=
  improve_classifies_problem_solving ("improve the gap") (by decide)

/-- C7 counterexample: a case-insensitive reading of the
create/build/achieve check predicts the same score for Create and
create; the code applies the +1 bonus only to the exact lower-case
spelling, scoring Create 7 but create 8. -/
theorem vision_case_sensitivity_counterexample :
    analyzeVisionQuality ("Create") = 7 ∧ analyzeVisionQuality ("create") = 8 := by
  decide

/-- The vision scorer as the amended claim words it: base 5; the
create/build/achieve +1 is a case-sensitive substring test on the raw
text, every other keyword check is a case-insensitive substring test;
the independently computed adjustments are summed and clamped to
[1,10]. -/
def visionQualityAmendedSpec (v : String) : Int :=
  let adjustments : List Int :=
    [if v.length > 50 then 1 else 0,
     if jsIncludes v ("create") || jsIncludes v ("build") || jsIncludes v ("achieve") then 1 else 0,
     if !(jsIncludes (jsToLower v) ("problem")) && !(jsIncludes (jsToLower v) ("fix")) then 2 else 0,
     if creativeWords.any (fun word => jsIncludes (jsToLower v) word) then 2 else 0,
     if visionProblemWords.any (fun word => jsIncludes (jsToLower v) word) then -3 else 0]
  max 1 (min 10 (5 + adjustments.sum))

/-- C7 amended: the vision scorer equals the amended description - with
the create/build/achieve check case-sensitive on the raw text and the
remaining checks case-insensitive. -/
theorem vision_scorer_case_amended (v : String) :
    analyzeVisionQuality v = visionQualityAmendedSpec v := by
  simp only [analyzeVisionQuality, visionQualityAmendedSpec, List.sum_cons, List.sum_nil]
  split_ifs <;> norm_num

/-- C8: the chart validator checks its rules in fixed order and returns
the first violation: whenever the desiredOutcome matches the
problem-word list and the currentReality matches the obligation-word
list, the returned violation is the outcome-wording one - by
constructor disjointness never the reality-wording one - for every date
parser and clock. -/
theorem chart_validator_priority (parseDate : String → Option Int) (now : Int)
    (o r d : String)
    (h1 : chartProblemWords.filter (fun w => jsIncludes (jsToLower o) w) ≠ [])
    (_h2 : chartActionWords.filter (fun w => jsIncludes (jsToLower r) w) ≠ []) :
    validateChartElements parseDate now o r d
      = Option.some (ChartViolation.outcomeWording
          (chartProblemWords.filter (fun w => jsIncludes (jsToLower o) w))) := by
  have hpos := List.length_pos.mpr h1
  simp [validateChartElements, hpos]

/-- Witness for C8 at a concrete request containing fix and should. -/
theorem chart_validator_priority_witness :
    validateChartElements (fun _ => Option.none) 0 ("fix this") ("I should act") ("2020-01-01")
      = Option.some (ChartViolation.outcomeWording
          (chartProblemWords.filter (fun w => jsIncludes (jsToLower ("fix this")) w))) :=
  chart_validator_priority (fun _ => Option.none) 0 ("fix this") ("I should act") ("2020-01-01")
    (by decide) (by decide)

/-- C9: the classifier never returns biasType enhancement: improve and
enhance are problem-solving dictionary words, so any text satisfying
the enhancement test has already selected problem-solving; the
enhancement branch is unreachable. -/
theorem biasType_never_enhancement (t : String) :
    (detectReactivePatterns t).biasType ≠ BiasType.enhancement := by
  rw [detectReactivePatterns_biasType]
  split_ifs with h0 hp hg hie
  · simp
  · simp
  · simp
  · exfalso
    have hie' : jsIncludes (jsToLower t) ("improve") = true ∨ jsIncludes (jsToLower t) ("enhance") = true := by
      simpa using hie
    rcases hie' with hi | he
    · exact hp (List.length_pos.mpr (List.ne_nil_of_mem (includes_improve_mem t hi)))
    · exact hp (List.length_pos.mpr (List.ne_nil_of_mem (includes_enhance_mem t he)))
  · simp

/-- C10: the focus parameter of the bias detector has no effect on the
computed analysis or on the non-auto-correct report: detectReactivePatterns
reads only the text, and for any two focus values the execute results
coincide (the focus argument is destructured and never read). -/
theorem focus_has_no_effect (gen : String → String) (text : String) (f1 f2 : Focus) :
    detectReactivePatterns text = detectReactivePatterns text
    ∧ biasDetectorExecute gen text false f1 = biasDetectorExecute gen text false f2 :=
  ⟨rfl, rfl⟩
